import Mathlib

/-!
Verification of the SendGrid email backend (`anymail/backends/sendgrid.py`).

The payload builder and response parser are shallowly embedded: Python dicts
become ordered association lists (`dictLookup` / `dictInsert` mirror `d[k]`
reads and writes, with insertion order preserved and in-place value update for
an existing key, exactly as Python dicts behave), JSON values become the
`Json` inductive, and methods that can raise become functions into `Except`.
-/

/-- A JSON value, as produced by deserializing a provider response or held in
the builder's `smtpapi` options blob.  Numbers are modelled as integers (no
claim depends on floats). -/
inductive Json where
  | null : Json
  | bool (b : Bool) : Json
  | num (n : Int) : Json
  | str (s : String) : Json
  | arr (xs : List Json) : Json
  | obj (fields : List (String × Json)) : Json

/-- Lookup in a Python dict modelled as an ordered association list
(`k in d` / `d[k]`). -/
def dictLookup : List (String × α) → String → Option α
  | [], _ => none
  | (k', v') :: rest, k => if k' = k then some v' else dictLookup rest k

/-- Assignment `d[k] = v` on a Python dict: replaces the value of an existing
key in place, otherwise appends at the end (Python dicts preserve insertion
order). -/
def dictInsert : List (String × α) → String → α → List (String × α)
  | [], k, v => [(k, v)]
  | (k', v') :: rest, k, v =>
    if k' = k then (k, v) :: rest else (k', v') :: dictInsert rest k v

/-- Python `d.update(other)`: assigns every key/value pair of `other` into `d`
in order, so on a duplicated key the entry from `other` wins. -/
def dictUpdate (d other : List (String × α)) : List (String × α) :=
  other.foldl (fun acc kv => dictInsert acc kv.1 kv.2) d

@[simp] theorem dictLookup_nil (k : String) : dictLookup ([] : List (String × α)) k = none := rfl

@[simp] theorem dictLookup_cons (k' k : String) (v' : α) (rest : List (String × α)) :
    dictLookup ((k', v') :: rest) k = if k' = k then some v' else dictLookup rest k := rfl

theorem dictLookup_dictInsert_self (d : List (String × α)) (k : String) (v : α) :
    dictLookup (dictInsert d k v) k = some v := by
  induction d with
  | nil => simp [dictInsert]
  | cons hd tl ih =>
    obtain ⟨a, b⟩ := hd
    by_cases h : a = k
    · simp [dictInsert, h]
    · simp [dictInsert, h, ih]

theorem dictLookup_dictInsert_ne (d : List (String × α)) (k k' : String) (v : α)
    (h : k' ≠ k) : dictLookup (dictInsert d k v) k' = dictLookup d k' := by
  induction d with
  | nil => simp [dictInsert, Ne.symm h]
  | cons hd tl ih =>
    obtain ⟨a, b⟩ := hd
    by_cases hk : a = k
    · subst hk
      simp [dictInsert, Ne.symm h]
    · by_cases hk' : a = k'
      · simp [dictInsert, hk, hk', h]
      · simp [dictInsert, hk, hk', ih]

/-- Keys of the result of a dict assignment are the old keys plus the new key. -/
theorem mem_keys_dictInsert (d : List (String × α)) (k x : String) (v : α)
    (h : x ∈ (dictInsert d k v).map Prod.fst) : x = k ∨ x ∈ d.map Prod.fst := by
  induction d with
  | nil => simpa [dictInsert] using h
  | cons hd tl ih =>
    obtain ⟨a, b⟩ := hd
    by_cases hk : a = k
    · simp only [dictInsert, if_pos hk, List.map_cons, List.mem_cons] at h ⊢
      rcases h with h | h
      · exact Or.inl h
      · exact Or.inr (Or.inr h)
    · simp only [dictInsert, if_neg hk, List.map_cons, List.mem_cons] at h ⊢
      rcases h with h | h
      · exact Or.inr (Or.inl h)
      · rcases ih h with h | h
        · exact Or.inl h
        · exact Or.inr (Or.inr h)

theorem keys_toFinset_dictInsert (d : List (String × α)) (k : String) (v : α) :
    ((dictInsert d k v).map Prod.fst).toFinset = insert k (d.map Prod.fst).toFinset := by
  induction d with
  | nil => simp [dictInsert]
  | cons hd tl ih =>
    obtain ⟨a, b⟩ := hd
    by_cases hk : a = k
    · subst hk
      simp [dictInsert]
    · simp only [dictInsert, if_neg hk, List.map_cons, List.toFinset_cons, ih]
      exact Finset.Insert.comm a k (tl.map Prod.fst).toFinset

theorem nodup_keys_dictInsert (d : List (String × α)) (k : String) (v : α)
    (h : (d.map Prod.fst).Nodup) : ((dictInsert d k v).map Prod.fst).Nodup := by
  induction d with
  | nil => simp [dictInsert]
  | cons hd tl ih =>
    obtain ⟨a, b⟩ := hd
    simp only [List.map_cons, List.nodup_cons] at h
    by_cases hk : a = k
    · subst hk
      simpa [dictInsert] using h
    · simp only [dictInsert, if_neg hk, List.map_cons, List.nodup_cons]
      refine ⟨fun hmem => ?_, ih h.2⟩
      rcases mem_keys_dictInsert tl k a v hmem with h' | h'
      · exact hk h'
      · exact h.1 h'

theorem length_dictInsert_le (d : List (String × α)) (k : String) (v : α) :
    (dictInsert d k v).length ≤ d.length + 1 := by
  induction d with
  | nil => simp [dictInsert]
  | cons hd tl ih =>
    obtain ⟨a, b⟩ := hd
    by_cases hk : a = k
    · simp [dictInsert, hk]
    · simpa [dictInsert, hk] using Nat.succ_le_succ ih

/-- Every value stored by repeated insertion of the same constant is that
constant. -/
theorem snd_dictInsert_const (d : List (String × α)) (k : String) (c : α)
    (h : ∀ x ∈ d, x.2 = c) : ∀ x ∈ dictInsert d k c, x.2 = c := by
  induction d with
  | nil =>
    intro x hx
    simpa [dictInsert] using congrArg Prod.snd (List.mem_singleton.mp hx)
  | cons hd tl ih =>
    intro x hx
    obtain ⟨a, b⟩ := hd
    by_cases hk : a = k
    · simp only [dictInsert, if_pos hk, List.mem_cons] at hx
      rcases hx with hx | hx
      · simp [hx]
      · exact h x (List.mem_cons_of_mem (a, b) hx)
    · simp only [dictInsert, if_neg hk, List.mem_cons] at hx
      rcases hx with hx | hx
      · exact hx ▸ h (a, b) (List.mem_cons_self (a, b) tl)
      · exact ih (fun y hy => h y (List.mem_cons_of_mem (a, b) hy)) x hx

theorem map_snd_eq_replicate_of_const (d : List (String × α)) (c : α)
    (h : ∀ x ∈ d, x.2 = c) : d.map Prod.snd = List.replicate d.length c := by
  induction d with
  | nil => simp
  | cons hd tl ih =>
    simp only [List.map_cons, List.length_cons, List.replicate_succ]
    refine congrArg₂ List.cons (h hd (List.mem_cons_self hd tl)) ?_
    exact ih (fun y hy => h y (List.mem_cons_of_mem hd hy))

mutual
/-- JSON serialization (`self.serialize_json`).  The model renders the usual
JSON syntax; string escaping is elided (no claim involves special characters
inside serialized strings). -/
def Json.encode : Json → String
  | .null => "null"
  | .bool true => "true"
  | .bool false => "false"
  | .num n => toString n
  | .str s => "\"" ++ s ++ "\""
  | .arr xs => "[" ++ Json.encodeItems xs ++ "]"
  | .obj fs => "\x7b" ++ Json.encodeFields fs ++ "\x7d"

def Json.encodeItems : List Json → String
  | [] => ""
  | [x] => Json.encode x
  | x :: xs => Json.encode x ++ ", " ++ Json.encodeItems xs

def Json.encodeFields : List (String × Json) → String
  | [] => ""
  | [(k, v)] => "\"" ++ k ++ "\": " ++ Json.encode v
  | (k, v) :: fs => "\"" ++ k ++ "\": " ++ Json.encode v ++ ", " ++ Json.encodeFields fs
end

/-- Lookup in a `CaseInsensitiveDict` (the `headers` sub-mapping): keys match
up to ASCII case. -/
def ciLookup : List (String × String) → String → Option String
  | [], _ => none
  | (k', v') :: rest, k => if k'.toLower = k.toLower then some v' else ciLookup rest k

/-- Assignment into a `CaseInsensitiveDict`: replaces the entry whose key
matches case-insensitively (adopting the newly supplied key spelling, as
`requests.structures.CaseInsensitiveDict.__setitem__` does), else appends. -/
def ciInsert : List (String × String) → String → String → List (String × String)
  | [], k, v => [(k, v)]
  | (k', v') :: rest, k, v =>
    if k'.toLower = k.toLower then (k, v) :: rest else (k', v') :: ciInsert rest k v

theorem ciLookup_ciInsert_self (h : List (String × String)) (k v : String) :
    ciLookup (ciInsert h k v) k = some v := by
  induction h with
  | nil => simp [ciInsert, ciLookup]
  | cons hd tl ih =>
    obtain ⟨a, b⟩ := hd
    by_cases hk : a.toLower = k.toLower
    · simp [ciInsert, ciLookup, hk]
    · simp [ciInsert, ciLookup, hk, ih]

/-- Modelled from the spec: a parsed email address from the generic message
object model (an external collaborator of this module) — an address plus an
optional display name, with `name = ""` when no display name was given
(Python renders a missing name as a falsy empty string). -/
structure EmailAddress where
  email : String
  name : String
deriving DecidableEq

/-- Modelled from the spec: an attachment from the generic message object
model — name, content bytes (modelled as a string), MIME type, inline flag and
content-id.  `name = none` is an unnamed attachment (`attachment.name` is
`None`). -/
structure Attachment where
  name : Option String
  content : String
  mimetype : String
  inline : Bool
  cid : String
deriving DecidableEq

/-- Modelled from the spec: `AnymailRecipientStatus` (defined in
`anymail/message.py`, outside the provided sources) — the normalized
per-recipient delivery status record: a message identifier plus a coarse
status string. -/
structure AnymailRecipientStatus where
  message_id : Option String
  status : String
deriving DecidableEq

/-- A value stored in the builder's `self.data` field mapping: plain strings,
parallel string lists (recipient fields), or a JSON value placed by the
`esp_extra` overrides setter (e.g. an `x-smtpapi` dict). -/
inductive FieldValue where
  | str (s : String) : FieldValue
  | strList (xs : List String) : FieldValue
  | json (j : Json) : FieldValue

/-- The JSON value a `FieldValue` denotes when passed to `serialize_json`. -/
def FieldValue.toJson : FieldValue → Json
  | .str s => Json.str s
  | .strList xs => Json.arr (xs.map Json.str)
  | .json j => j

/-- Errors raised while building / serializing the payload:
`unsupportedFeature` models `self.unsupported_feature(...)` (modelled from the
spec: the base-class helper, outside the provided sources, raises an
unsupported-feature error naming the facet), `assertionError` a failed
`assert`, and `typeError` an uncaught Python `TypeError`. -/
inductive PayloadError where
  | unsupportedFeature (feature : String) : PayloadError
  | assertionError : PayloadError
  | typeError : PayloadError
deriving DecidableEq

/-- Errors raised by `parse_recipient_status`:
`invalidFormat` is the "Invalid SendGrid API response format" API error,
`sendFailed` the "SendGrid send failed: ..." API error (carrying its message
text), and `typeError` an uncaught Python `TypeError` (joining a malformed
`errors` value). -/
inductive APIError where
  | invalidFormat : APIError
  | sendFailed (text : String) : APIError
  | typeError : APIError
deriving DecidableEq

/-- The state of a `SendGridPayload`: `data` is `self.data` (with the
`headers` sub-dict split out into the `headers` component, and written back
into `data` as a JSON string by `serialize_data`), `files` maps a files-field
name to `(filename, content, mimetype)`, and `all_recipients`, `smtpapi`,
`message_id` mirror the attributes set in `__init__`. -/
structure SGPayload where
  data : List (String × FieldValue)
  headers : List (String × String)
  files : List (String × (String × String × String))
  all_recipients : List EmailAddress
  smtpapi : List (String × Json)
  message_id : Option String

/-- `__init__` + `init_payload`: empty field mapping, empty files mapping,
case-insensitive headers sub-mapping, no recipients, empty options blob, no
message id yet. -/
def init_payload : SGPayload :=
  { data := [], headers := [], files := [], all_recipients := [], smtpapi := [],
    message_id := none }

/-- `set_from_email`: stores the sender address under `from`, and the display
name under `fromname` only when one is present. -/
def set_from_email (p : SGPayload) (email : EmailAddress) : Except PayloadError SGPayload :=
  let d := dictInsert p.data "from" (FieldValue.str email.email)
  .ok { p with data := if email.name = "" then d else dictInsert d "fromname" (FieldValue.str email.name) }

/-- `set_recipients`: asserts the recipient type is one of to/cc/bcc; for a
non-empty list stores the parallel address and display-name lists (an empty
name becomes the single-space placeholder) and appends the recipients to
`all_recipients`. -/
def set_recipients (p : SGPayload) (recipient_type : String) (emails : List EmailAddress) :
    Except PayloadError SGPayload :=
  if recipient_type ∈ (["to", "cc", "bcc"] : List String) then
    if emails.isEmpty then .ok p
    else .ok { p with
      data := dictInsert
        (dictInsert p.data recipient_type (FieldValue.strList (emails.map (·.email))))
        (recipient_type ++ "name")
        (FieldValue.strList (emails.map fun e => if e.name = "" then " " else e.name)),
      all_recipients := p.all_recipients ++ emails }
  else .error .assertionError

/-- `set_subject`. -/
def set_subject (p : SGPayload) (subject : String) : Except PayloadError SGPayload :=
  .ok { p with data := dictInsert p.data "subject" (FieldValue.str subject) }

/-- `set_text_body`. -/
def set_text_body (p : SGPayload) (body : String) : Except PayloadError SGPayload :=
  .ok { p with data := dictInsert p.data "text" (FieldValue.str body) }

/-- `set_html_body`: a second HTML body is an unsupported feature. -/
def set_html_body (p : SGPayload) (body : String) : Except PayloadError SGPayload :=
  if (dictLookup p.data "html").isSome then
    .error (.unsupportedFeature "multiple html parts")
  else
    .ok { p with data := dictInsert p.data "html" (FieldValue.str body) }

/-- The resolved filename of an attachment: `attachment.name or ""`, and for
an inline attachment additionally `filename or attachment.cid`. -/
def resolvedFilename (a : Attachment) : String :=
  let filename := a.name.getD ""
  if a.inline then (if filename = "" then a.cid else filename) else filename

/-- ASCII single-quote character, used by the source's format strings. -/
def singleQuote : String := String.singleton (Char.ofNat 39)

/-- `add_attachment`: inline attachments also get a `content[...]` data field
keyed by the resolved filename; a second attachment whose files-field name
collides with an existing one is an unsupported feature. -/
def add_attachment (p : SGPayload) (a : Attachment) : Except PayloadError SGPayload :=
  let filename := resolvedFilename a
  let data1 := if a.inline then
    dictInsert p.data ("content[" ++ filename ++ "]") (FieldValue.str a.cid)
  else p.data
  let files_field := "files[" ++ filename ++ "]"
  if (dictLookup p.files files_field).isSome then
    .error (.unsupportedFeature
      (if filename ≠ "" then
        "multiple attachments with the same filename (" ++ singleQuote ++ filename ++ singleQuote ++ ")"
      else "multiple unnamed attachments"))
  else
    .ok { p with data := data1,
                 files := dictInsert p.files files_field (filename, a.content, a.mimetype) }

/-- `set_metadata`: stores the metadata mapping under the `unique_args`
options key. -/
def set_metadata (p : SGPayload) (metadata : List (String × Json)) :
    Except PayloadError SGPayload :=
  .ok { p with smtpapi := dictInsert p.smtpapi "unique_args" (Json.obj metadata) }

/-- `set_esp_extra`: merges the caller's overrides directly into the top-level
field mapping. -/
def set_esp_extra (p : SGPayload) (extra : List (String × FieldValue)) :
    Except PayloadError SGPayload :=
  .ok { p with data := dictUpdate p.data extra }

/-- Python `s.split(sep)` for a one-character separator, on the character
list of the string: splits into the (possibly empty) groups between
occurrences of the separator, so a string with no separator yields one group
and `"a@b"` yields two. -/
def splitOnChar (c : Char) : List Char → List (List Char)
  | [] => [[]]
  | x :: xs =>
    if x = c then [] :: splitOnChar c xs
    else
      match splitOnChar c xs with
      | [] => [[x]]
      | g :: gs => (x :: g) :: gs

/-- The two-element unpacking `_, domain = self.data["from"].split("@")` in
`make_message_id`: succeeds with the part after the separator exactly when
`@` occurs exactly once, and only on a string value. -/
def domainOfFrom : Option FieldValue → Option String
  | some (FieldValue.str s) =>
    match splitOnChar '@' s.data with
    | [_, d] => some (String.mk d)
    | _ => none
  | _ => none

/-- The `try: _, domain = self.data["from"].split("@") except ...: domain = None`
logic of `make_message_id`: `none` on a missing `from` field (KeyError), a
non-string value (AttributeError/TypeError), or a value not containing exactly
one `@` (ValueError). -/
def extractDomain (data : List (String × FieldValue)) : Option String :=
  domainOfFrom (dictLookup data "from")

/-- Modelled from the spec: Django's `make_msgid` (an external collaborator)
produces a globally-unique Message-ID string whose domain segment is the given
domain, falling back to a locally-generated default domain when none is given.
The unique time/random portion is abstracted as the `uniq` argument. -/
def make_msgid (uniq : String) (domain : Option String) : String :=
  "<" ++ uniq ++ "@" ++ domain.getD "localdomain" ++ ">"

/-- `make_message_id`: make a Message-ID using the `from` field's domain when
it parses, the default domain otherwise. -/
def make_message_id (data : List (String × FieldValue)) (uniq : String) : String :=
  make_msgid uniq (extractDomain data)

/-- The x-smtpapi part of `serialize_data`: when the builder's options blob is
non-empty, merge in any override value already stored under `x-smtpapi` by
`set_esp_extra` (`self.smtpapi.update(esp_extra_smtpapi)` — shallow, override
entries win on a duplicated key) and store the JSON encoding; when the blob is
empty but an override value exists, JSON-encode that value in place.
`dict.update` with a non-dict argument is an uncaught TypeError. -/
def smtpapiStep (p : SGPayload) : Except PayloadError (List (String × FieldValue)) :=
  if 0 < p.smtpapi.length then
    match dictLookup p.data "x-smtpapi" with
    | some (FieldValue.json (Json.obj fs)) =>
      .ok (dictInsert p.data "x-smtpapi"
        (FieldValue.str (Json.encode (Json.obj (dictUpdate p.smtpapi fs)))))
    | some _ => .error .typeError
    | none =>
      .ok (dictInsert p.data "x-smtpapi"
        (FieldValue.str (Json.encode (Json.obj p.smtpapi))))
  else
    match dictLookup p.data "x-smtpapi" with
    | some v => .ok (dictInsert p.data "x-smtpapi" (FieldValue.str (Json.encode v.toJson)))
    | none => .ok p.data

/-- `self.serialize_json(dict(headers.items()))`: the headers sub-mapping as
one JSON-encoded string. -/
def encodeHeaders (h : List (String × String)) : String :=
  Json.encode (Json.obj (h.map fun kv => (kv.1, Json.str kv.2)))

/-- `serialize_data`: serialize the x-smtpapi blob, resolve the message id
(the caller-supplied `Message-ID` header if present, else a synthesized one
recorded into the headers sub-mapping), then JSON-encode the headers into the
`headers` field of the final request data. -/
def serialize_data (p : SGPayload) (uniq : String) : Except PayloadError SGPayload :=
  match smtpapiStep p with
  | .error e => .error e
  | .ok data1 =>
    match ciLookup p.headers "Message-ID" with
    | some v =>
      .ok { p with
        data := dictInsert data1 "headers" (FieldValue.str (encodeHeaders p.headers)),
        message_id := some v }
    | none =>
      let mid := make_message_id data1 uniq
      let headers1 := ciInsert p.headers "Message-ID" mid
      .ok { p with
        data := dictInsert data1 "headers" (FieldValue.str (encodeHeaders headers1)),
        headers := headers1,
        message_id := some mid }

/-- `parsed_response["message"]` guarded by `except (KeyError, TypeError)`:
`none` when the response is not a JSON object (TypeError) or has no
top-level `message` key (KeyError). -/
def getMessageField : Json → Option Json
  | Json.obj fs => dictLookup fs "message"
  | _ => none

/-- `sendgrid_message != "success"` compares JSON values: only the literal
string `"success"` passes. -/
def isSuccess : Json → Bool
  | Json.str s => s = "success"
  | _ => false

/-- `parsed_response.get("errors", [])` followed by `"; ".join(...)`:
defined (as a list of strings) when the field is absent or is an array of
strings; any other shape makes the Python `join` raise. -/
def errorsOf : Json → Option (List String)
  | Json.obj fs =>
    match dictLookup fs "errors" with
    | none => some []
    | some (Json.arr xs) => xs.mapM fun x => match x with
        | Json.str s => some s
        | _ => none
    | some _ => none
  | _ => none

/-- The text of the send-failure error:
`"SendGrid send failed: '%s'" % "; ".join(errors)`. -/
def sendFailedText (errs : List String) : String :=
  "SendGrid send failed: " ++ singleQuote ++ String.intercalate "; " errs ++ singleQuote

/-- `SendGridBackend.parse_recipient_status` on an already JSON-deserialized
response: require the top-level `message` field (else the invalid-format
error), raise the send-failure error when it is not the literal `"success"`,
and otherwise return the dict comprehension
`{recipient.email: status for recipient in payload.all_recipients}` with the
uniform queued status. -/
def parse_recipient_status (payload : SGPayload) (resp : Json) :
    Except APIError (List (String × AnymailRecipientStatus)) :=
  match getMessageField resp with
  | none => .error .invalidFormat
  | some m =>
    if isSuccess m then
      .ok (payload.all_recipients.foldl
        (fun d r => dictInsert d r.email ⟨payload.message_id, "queued"⟩) [])
    else
      match errorsOf resp with
      | some errs => .error (.sendFailed (sendFailedText errs))
      | none => .error .typeError

theorem foldl_insert_const (rs : List EmailAddress) (c : AnymailRecipientStatus)
    (d : List (String × AnymailRecipientStatus)) (h : ∀ x ∈ d, x.2 = c) :
    ∀ x ∈ rs.foldl (fun acc r => dictInsert acc r.email c) d, x.2 = c := by
  induction rs generalizing d with
  | nil => simpa using h
  | cons r rs ih =>
    simpa using ih (dictInsert d r.email c) (snd_dictInsert_const d r.email c h)

theorem foldl_insert_keys (rs : List EmailAddress) (c : AnymailRecipientStatus)
    (d : List (String × AnymailRecipientStatus)) :
    ((rs.foldl (fun acc r => dictInsert acc r.email c) d).map Prod.fst).toFinset =
      (rs.map (·.email)).toFinset ∪ (d.map Prod.fst).toFinset := by
  induction rs generalizing d with
  | nil => simp
  | cons r rs ih =>
    simp only [List.foldl_cons, List.map_cons, List.toFinset_cons]
    rw [ih, keys_toFinset_dictInsert]
    rw [Finset.union_insert, Finset.insert_union]

theorem foldl_insert_nodup (rs : List EmailAddress) (c : AnymailRecipientStatus)
    (d : List (String × AnymailRecipientStatus)) (h : (d.map Prod.fst).Nodup) :
    ((rs.foldl (fun acc r => dictInsert acc r.email c) d).map Prod.fst).Nodup := by
  induction rs generalizing d with
  | nil => simpa using h
  | cons r rs ih =>
    simpa using ih (dictInsert d r.email c) (nodup_keys_dictInsert d r.email c h)

theorem foldl_insert_length (rs : List EmailAddress) (c : AnymailRecipientStatus)
    (d : List (String × AnymailRecipientStatus)) :
    (rs.foldl (fun acc r => dictInsert acc r.email c) d).length ≤ d.length + rs.length := by
  induction rs generalizing d with
  | nil => simp
  | cons r rs ih =>
    simp only [List.foldl_cons, List.length_cons]
    calc (rs.foldl (fun acc r => dictInsert acc r.email c) (dictInsert d r.email c)).length
        ≤ (dictInsert d r.email c).length + rs.length := ih (dictInsert d r.email c)
      _ ≤ (d.length + 1) + rs.length :=
          Nat.add_le_add_right (length_dictInsert_le d r.email c) rs.length
      _ = d.length + (rs.length + 1) := by omega

theorem self_ne_append_name (s : String) : s ≠ s ++ "name" := by
  intro h
  have hlen := congrArg String.length h
  rw [String.length_append] at hlen
  simp at hlen
  exact absurd hlen (by decide)

theorem append_inj_middle (pre suf x y : String)
    (h : pre ++ x ++ suf = pre ++ y ++ suf) : x = y := by
  have hd := congrArg String.data h
  simp only [String.data_append, List.append_assoc] at hd
  have h1 := List.append_cancel_left hd
  have h2 := List.append_cancel_right h1
  obtain ⟨xd⟩ := x
  obtain ⟨yd⟩ := y
  simp only [] at h2
  exact congrArg String.mk h2

theorem smtpapiStep_lookup_from (p : SGPayload) (d1 : List (String × FieldValue))
    (h : smtpapiStep p = .ok d1) : dictLookup d1 "from" = dictLookup p.data "from" := by
  unfold smtpapiStep at h
  split at h
  · split at h
    · cases h
      exact dictLookup_dictInsert_ne p.data "x-smtpapi" "from" _ (by decide)
    · cases h
    · cases h
      exact dictLookup_dictInsert_ne p.data "x-smtpapi" "from" _ (by decide)
  · split at h
    · cases h
      exact dictLookup_dictInsert_ne p.data "x-smtpapi" "from" _ (by decide)
    · cases h
      rfl

theorem isSuccess_eq_false (m : Json) (h : m ≠ Json.str "success") : isSuccess m = false := by
  cases m with
  | str s =>
    simp only [isSuccess, decide_eq_false_iff_not]
    intro hs
    exact h (by rw [hs])
  | null => rfl
  | bool b => rfl
  | num n => rfl
  | arr xs => rfl
  | obj fs => rfl

/-- C1: for a message with at least one accumulated recipient and a response
whose top-level `message` field is the literal `"success"`,
`parse_recipient_status` returns a non-empty mapping whose key set is exactly
the set of all recipients' email addresses and whose every value is the same
status record: status `"queued"` with the payload's resolved message
identifier. -/
theorem c1_success_returns_queued_for_all_recipients (p : SGPayload) (resp : Json)
    (hr : p.all_recipients ≠ [])
    (hs : getMessageField resp = some (Json.str "success")) :
    ∃ d, parse_recipient_status p resp = .ok d
      ∧ d ≠ []
      ∧ (d.map Prod.fst).toFinset = (p.all_recipients.map (·.email)).toFinset
      ∧ d.map Prod.snd = List.replicate d.length ⟨p.message_id, "queued"⟩ := by
  refine ⟨p.all_recipients.foldl
    (fun d r => dictInsert d r.email ⟨p.message_id, "queued"⟩) [], ?_, ?_, ?_, ?_⟩
  · simp [parse_recipient_status, hs, isSuccess]
  · intro h0
    have hkeys := foldl_insert_keys p.all_recipients ⟨p.message_id, "queued"⟩ []
    rw [h0] at hkeys
    cases hrs : p.all_recipients with
    | nil => exact hr hrs
    | cons r rest =>
      have hmem : r.email ∈ (p.all_recipients.map (·.email)).toFinset := by
        rw [hrs]; simp
      rw [← Finset.union_empty ((p.all_recipients.map (·.email)).toFinset),
        ← List.toFinset_nil (α := String), ← List.map_nil (f := Prod.fst)] at hmem
      rw [← hkeys] at hmem
      simp at hmem
  · simpa using foldl_insert_keys p.all_recipients ⟨p.message_id, "queued"⟩ []
  · exact map_snd_eq_replicate_of_const _ _
      (foldl_insert_const p.all_recipients ⟨p.message_id, "queued"⟩ [] (by simp))

def c1_payload : SGPayload :=
  { init_payload with
    all_recipients := [⟨"alice@example.com", "Alice"⟩, ⟨"bob@example.com", ""⟩],
    message_id := some "<id@example.com>" }

/-- Witness for C1 at a concrete two-recipient payload and success response. -/
theorem c1_witness :
    ∃ d, parse_recipient_status c1_payload (Json.obj [("message", Json.str "success")]) = .ok d
      ∧ d ≠ []
      ∧ (d.map Prod.fst).toFinset = (c1_payload.all_recipients.map (·.email)).toFinset
      ∧ d.map Prod.snd = List.replicate d.length ⟨c1_payload.message_id, "queued"⟩ :=
  c1_success_returns_queued_for_all_recipients c1_payload
    (Json.obj [("message", Json.str "success")]) (by decide) rfl

/-- C9: the result of `parse_recipient_status` on success is keyed by email
address: its keys contain no duplicates, so its size never exceeds (and can be
smaller than) the number of accumulated recipient entries. -/
theorem c9_result_keyed_by_email (p : SGPayload) (resp : Json)
    (hs : getMessageField resp = some (Json.str "success")) :
    ∃ d, parse_recipient_status p resp = .ok d
      ∧ (d.map Prod.fst).Nodup
      ∧ d.length ≤ p.all_recipients.length := by
  refine ⟨p.all_recipients.foldl
    (fun d r => dictInsert d r.email ⟨p.message_id, "queued"⟩) [], ?_, ?_, ?_⟩
  · simp [parse_recipient_status, hs, isSuccess]
  · exact foldl_insert_nodup p.all_recipients ⟨p.message_id, "queued"⟩ [] (by simp)
  · simpa using foldl_insert_length p.all_recipients ⟨p.message_id, "queued"⟩ []

def c9_payload : SGPayload :=
  { init_payload with
    all_recipients := [⟨"dup@example.com", "A"⟩, ⟨"dup@example.com", "B"⟩],
    message_id := some "<id@example.com>" }

/-- Witness for C9: the same address accumulated twice (once via `to`, once
via `cc`) collapses to a single result entry — 1 entry from 2 recipients. -/
theorem c9_witness :
    (∃ d, parse_recipient_status c9_payload (Json.obj [("message", Json.str "success")]) = .ok d
      ∧ (d.map Prod.fst).Nodup
      ∧ d.length ≤ c9_payload.all_recipients.length)
    ∧ parse_recipient_status c9_payload (Json.obj [("message", Json.str "success")])
        = .ok [("dup@example.com", ⟨some "<id@example.com>", "queued"⟩)]
    ∧ c9_payload.all_recipients.length = 2 :=
  ⟨c9_result_keyed_by_email c9_payload (Json.obj [("message", Json.str "success")]) rfl,
    rfl, rfl⟩

/-- C5: for a response whose `message` field is present but is not the literal
`"success"`, `parse_recipient_status` raises the send-failure error whose text
embeds the response's `errors` strings joined together (the `errors` field
defaulting to the empty list when absent). -/
theorem c5_send_failure_error_text (p : SGPayload) (resp : Json) (m : Json)
    (errs : List String) (h1 : getMessageField resp = some m)
    (h2 : m ≠ Json.str "success") (h3 : errorsOf resp = some errs) :
    parse_recipient_status p resp = .error (.sendFailed (sendFailedText errs)) := by
  simp [parse_recipient_status, h1, isSuccess_eq_false m h2, h3]

def c5_response : Json :=
  Json.obj [("message", Json.str "error"), ("errors", Json.arr [Json.str "bad address"])]

/-- Witness for C5: the response with message "error" and errors
["bad address"] raises the send-failure error, whose text contains
"bad address"; a response with no `errors` field gets the empty default. -/
theorem c5_witness :
    parse_recipient_status init_payload c5_response
        = .error (.sendFailed (sendFailedText ["bad address"]))
    ∧ "bad address".data <:+: (sendFailedText ["bad address"]).data
    ∧ parse_recipient_status init_payload (Json.obj [("message", Json.str "error")])
        = .error (.sendFailed (sendFailedText [])) :=
  ⟨c5_send_failure_error_text init_payload c5_response (Json.str "error") ["bad address"]
      rfl (by simp) rfl,
    by decide,
    c5_send_failure_error_text init_payload (Json.obj [("message", Json.str "error")])
      (Json.str "error") [] rfl (by simp) rfl⟩

/-- Counterexample to C4: a response whose `message` field is present but has
the wrong type (the number 42 instead of a string) does NOT raise the
invalid-format error — the wrong-typed value merely fails the comparison with
"success" and falls into the send-failure path. -/
theorem c4_counterexample :
    getMessageField (Json.obj [("message", Json.num 42)]) = some (Json.num 42)
    ∧ parse_recipient_status init_payload (Json.obj [("message", Json.num 42)])
        = .error (.sendFailed (sendFailedText []))
    ∧ APIError.sendFailed (sendFailedText []) ≠ APIError.invalidFormat :=
  ⟨rfl, rfl, by decide⟩

/-- C4 (amended): `parse_recipient_status` raises the invalid-format error
exactly when the JSON-deserialized response is not an object or lacks a
top-level `message` key; a present `message` of any type is instead compared
against `"success"` (and a wrong-typed value falls into the send-failure
path).  In every invalid-format case no result mapping is returned. -/
theorem c4_invalid_format_iff_missing_message (p : SGPayload) (resp : Json) :
    parse_recipient_status p resp = .error .invalidFormat
      ↔ ∀ fs, resp = Json.obj fs → dictLookup fs "message" = none := by
  cases resp with
  | obj fs =>
    constructor
    · intro h gs hg
      injection hg with hg
      subst hg
      cases hm : dictLookup fs "message" with
      | none => rfl
      | some m =>
        exfalso
        unfold parse_recipient_status at h
        simp only [getMessageField, hm] at h
        by_cases hsm : isSuccess m
        · rw [if_pos hsm] at h
          cases h
        · rw [if_neg hsm] at h
          cases he : errorsOf (Json.obj fs) with
          | some errs => rw [he] at h; simp at h
          | none => rw [he] at h; simp at h
    · intro h
      have hm := h fs rfl
      simp only [parse_recipient_status, getMessageField, hm]
  | null => exact ⟨fun _ fs hg => Json.noConfusion hg, fun _ => rfl⟩
  | bool b => exact ⟨fun _ fs hg => Json.noConfusion hg, fun _ => rfl⟩
  | num n => exact ⟨fun _ fs hg => Json.noConfusion hg, fun _ => rfl⟩
  | str s => exact ⟨fun _ fs hg => Json.noConfusion hg, fun _ => rfl⟩
  | arr xs => exact ⟨fun _ fs hg => Json.noConfusion hg, fun _ => rfl⟩

/-- C6: setting the HTML body when one is already present raises the
unsupported-feature error (the stored body is untouched — the erroring call
returns no updated payload); setting it once succeeds and stores the body, and
additionally setting the text body raises nothing (after which a second HTML
body still errors). -/
theorem c6_html_body_once (p : SGPayload) (b b2 t : String)
    (hp : dictLookup p.data "html" = none) :
    ∃ p' p'', set_html_body p b = .ok p'
      ∧ dictLookup p'.data "html" = some (FieldValue.str b)
      ∧ set_html_body p' b2 = .error (.unsupportedFeature "multiple html parts")
      ∧ set_text_body p' t = .ok p''
      ∧ set_html_body p'' b2 = .error (.unsupportedFeature "multiple html parts") := by
  refine ⟨{ p with data := dictInsert p.data "html" (FieldValue.str b) }, _,
    ?_, dictLookup_dictInsert_self p.data "html" (FieldValue.str b), ?_, rfl, ?_⟩
  · simp [set_html_body, hp]
  · simp [set_html_body, dictLookup_dictInsert_self]
  · have hh : dictLookup
        (dictInsert (dictInsert p.data "html" (FieldValue.str b)) "text" (FieldValue.str t))
        "html" = some (FieldValue.str b) := by
      rw [dictLookup_dictInsert_ne _ _ _ _ (by decide)]
      exact dictLookup_dictInsert_self p.data "html" (FieldValue.str b)
    simp [set_text_body, set_html_body, hh]

/-- Witness for C6 starting from the freshly initialized payload. -/
theorem c6_witness :
    ∃ p' p'', set_html_body init_payload "<p>Hi</p>" = .ok p'
      ∧ dictLookup p'.data "html" = some (FieldValue.str "<p>Hi</p>")
      ∧ set_html_body p' "<p>Bye</p>" = .error (.unsupportedFeature "multiple html parts")
      ∧ set_text_body p' "Hi" = .ok p''
      ∧ set_html_body p'' "<p>Bye</p>" = .error (.unsupportedFeature "multiple html parts") :=
  c6_html_body_once init_payload "<p>Hi</p>" "<p>Bye</p>" "Hi" rfl

/-- C7: after adding an attachment, adding a second one with the same resolved
filename (including two unnamed non-inline attachments, which share the empty
name) is an unsupported feature, while a second one with a distinct resolved
filename (e.g. an inline attachment auto-named by its content-id) succeeds. -/
theorem c7_attachment_filename_collision (p : SGPayload) (a1 a2 : Attachment)
    (h1 : dictLookup p.files ("files[" ++ resolvedFilename a1 ++ "]") = none)
    (h2 : dictLookup p.files ("files[" ++ resolvedFilename a2 ++ "]") = none) :
    ∃ p1, add_attachment p a1 = .ok p1
      ∧ (resolvedFilename a2 = resolvedFilename a1 →
          ∃ s, add_attachment p1 a2 = .error (.unsupportedFeature s))
      ∧ (resolvedFilename a2 ≠ resolvedFilename a1 →
          ∃ p2, add_attachment p1 a2 = .ok p2) := by
  refine ⟨{ p with
      data := if a1.inline then
          dictInsert p.data ("content[" ++ resolvedFilename a1 ++ "]") (FieldValue.str a1.cid)
        else p.data,
      files := dictInsert p.files ("files[" ++ resolvedFilename a1 ++ "]")
        (resolvedFilename a1, a1.content, a1.mimetype) }, ?_, ?_, ?_⟩
  · simp [add_attachment, h1]
  · intro heq
    have hl : (dictLookup
        (dictInsert p.files ("files[" ++ resolvedFilename a1 ++ "]")
          (resolvedFilename a1, a1.content, a1.mimetype))
        ("files[" ++ resolvedFilename a2 ++ "]")).isSome = true := by
      rw [heq, dictLookup_dictInsert_self]
      rfl
    exact ⟨_, by simp [add_attachment, hl]; rfl⟩
  · intro hne
    have hfne : ("files[" ++ resolvedFilename a2 ++ "]" : String)
        ≠ "files[" ++ resolvedFilename a1 ++ "]" := by
      intro hf
      exact hne (append_inj_middle "files[" "]" _ _ hf)
    have hl : dictLookup
        (dictInsert p.files ("files[" ++ resolvedFilename a1 ++ "]")
          (resolvedFilename a1, a1.content, a1.mimetype))
        ("files[" ++ resolvedFilename a2 ++ "]") = none := by
      rw [dictLookup_dictInsert_ne _ _ _ _ hfne]
      exact h2
    exact ⟨_, by simp [add_attachment, hl]; rfl⟩

def c7_unnamed1 : Attachment := ⟨none, "data1", "application/octet-stream", false, ""⟩

def c7_unnamed2 : Attachment := ⟨none, "data2", "application/octet-stream", false, ""⟩

def c7_named : Attachment := ⟨some "report.pdf", "pdfdata", "application/pdf", false, ""⟩

def c7_inline : Attachment := ⟨none, "imgdata", "image/png", true, "img1"⟩

/-- Witness for C7: two unnamed non-inline attachments collide (both resolve
to the empty filename); a named attachment and an inline attachment auto-named
by its content-id do not. -/
theorem c7_witness :
    (∃ p1, add_attachment init_payload c7_unnamed1 = .ok p1
      ∧ ∃ s, add_attachment p1 c7_unnamed2 = .error (.unsupportedFeature s))
    ∧ (∃ p1, add_attachment init_payload c7_named = .ok p1
      ∧ ∃ p2, add_attachment p1 c7_inline = .ok p2) := by
  constructor
  · obtain ⟨p1, hok, hcoll, _⟩ :=
      c7_attachment_filename_collision init_payload c7_unnamed1 c7_unnamed2 rfl rfl
    exact ⟨p1, hok, hcoll rfl⟩
  · obtain ⟨p1, hok, _, hdist⟩ :=
      c7_attachment_filename_collision init_payload c7_named c7_inline rfl rfl
    exact ⟨p1, hok, hdist (by decide)⟩

/-- C8: for a valid recipient type and a non-empty recipient list,
`set_recipients` stores the parallel address and display-name lists (equal
length; a missing display name contributes the single-space string, never the
empty string) and appends every recipient to `all_recipients`. -/
theorem c8_recipients_parallel_lists (p : SGPayload) (rt : String)
    (emails : List EmailAddress) (h1 : rt ∈ (["to", "cc", "bcc"] : List String))
    (h2 : emails ≠ []) :
    ∃ p', set_recipients p rt emails = .ok p'
      ∧ dictLookup p'.data rt = some (FieldValue.strList (emails.map (·.email)))
      ∧ dictLookup p'.data (rt ++ "name")
          = some (FieldValue.strList (emails.map fun e => if e.name = "" then " " else e.name))
      ∧ (emails.map fun e => if e.name = "" then " " else e.name).length
          = (emails.map (·.email)).length
      ∧ (emails.map fun e => if e.name = "" then " " else e.name).all (fun s => s != "") = true
      ∧ p'.all_recipients = p.all_recipients ++ emails := by
  have hne : emails.isEmpty = false := by
    cases emails with
    | nil => exact absurd rfl h2
    | cons e es => rfl
  refine ⟨{ p with
      data := dictInsert
        (dictInsert p.data rt (FieldValue.strList (emails.map (·.email))))
        (rt ++ "name")
        (FieldValue.strList (emails.map fun e => if e.name = "" then " " else e.name)),
      all_recipients := p.all_recipients ++ emails },
    ?_, ?_, dictLookup_dictInsert_self _ _ _, by simp, ?_, rfl⟩
  · simp [set_recipients, h1, hne]
  · rw [show ({ p with
        data := dictInsert
          (dictInsert p.data rt (FieldValue.strList (emails.map (·.email))))
          (rt ++ "name")
          (FieldValue.strList (emails.map fun e => if e.name = "" then " " else e.name)),
        all_recipients := p.all_recipients ++ emails } : SGPayload).data = dictInsert
          (dictInsert p.data rt (FieldValue.strList (emails.map (·.email))))
          (rt ++ "name")
          (FieldValue.strList (emails.map fun e => if e.name = "" then " " else e.name)) from rfl]
    rw [dictLookup_dictInsert_ne _ _ _ _ (self_ne_append_name rt)]
    exact dictLookup_dictInsert_self _ _ _
  · simp only [List.all_eq_true]
    intro s hs
    rcases List.mem_map.mp hs with ⟨e, _, rfl⟩
    by_cases hn : e.name = "" <;> simp [hn]

def c8_emails : List EmailAddress :=
  [⟨"alice@example.com", "Alice"⟩, ⟨"bob@example.com", ""⟩]

/-- Witness for C8: a `to` list where the second recipient has no display
name, which serializes to the single-space placeholder. -/
theorem c8_witness :
    ∃ p', set_recipients init_payload "to" c8_emails = .ok p'
      ∧ dictLookup p'.data "to" = some (FieldValue.strList (c8_emails.map (·.email)))
      ∧ dictLookup p'.data "toname"
          = some (FieldValue.strList (c8_emails.map fun e => if e.name = "" then " " else e.name))
      ∧ (c8_emails.map fun e => if e.name = "" then " " else e.name).length
          = (c8_emails.map (·.email)).length
      ∧ (c8_emails.map fun e => if e.name = "" then " " else e.name).all (fun s => s != "") = true
      ∧ p'.all_recipients = init_payload.all_recipients ++ c8_emails :=
  c8_recipients_parallel_lists init_payload "to" c8_emails (by decide) (by decide)

/-- C10: `set_recipients` with an empty list (for a valid recipient type)
returns the payload unchanged — no field is created and `all_recipients`
keeps exactly its previous elements. -/
theorem c10_empty_recipient_list_noop (p : SGPayload) (rt : String)
    (h : rt ∈ (["to", "cc", "bcc"] : List String)) :
    set_recipients p rt [] = .ok p := by
  simp [set_recipients, h]

def c10_payload : SGPayload :=
  { init_payload with
    data := [("to", FieldValue.strList ["x@example.com"])],
    all_recipients := [⟨"x@example.com", "X"⟩] }

/-- Witness for C10 at a payload that already holds a recipient. -/
theorem c10_witness : set_recipients c10_payload "cc" [] = .ok c10_payload :=
  c10_empty_recipient_list_noop c10_payload "cc" (by decide)

/-- After a successful x-smtpapi step, `serialize_data` succeeds and its two
branches (caller-supplied Message-ID header present or absent) produce the
stated final payloads. -/
theorem serialize_data_ok (p : SGPayload) (uniq : String)
    (d1 : List (String × FieldValue)) (hstep : smtpapiStep p = .ok d1) :
    (∀ v, ciLookup p.headers "Message-ID" = some v →
      serialize_data p uniq = .ok { p with
        data := dictInsert d1 "headers" (FieldValue.str (encodeHeaders p.headers)),
        message_id := some v })
    ∧ (ciLookup p.headers "Message-ID" = none →
      serialize_data p uniq = .ok { p with
        data := dictInsert d1 "headers" (FieldValue.str (encodeHeaders
          (ciInsert p.headers "Message-ID" (make_message_id d1 uniq)))),
        headers := ciInsert p.headers "Message-ID" (make_message_id d1 uniq),
        message_id := some (make_message_id d1 uniq) }) := by
  constructor
  · intro v hml
    unfold serialize_data
    rw [hstep, hml]
  · intro hml
    unfold serialize_data
    rw [hstep, hml]

/-- C2: in `serialize_data`, when the builder's accumulated options blob
(`smtpapi`) is non-empty and `set_esp_extra` already placed an options dict
under `x-smtpapi`, the two are shallow-merged (`dict.update`: the override's
entries win on a duplicated key — the documented limitation that nested
structures are not deep-merged) and the merged dict is JSON-encoded into the
single `x-smtpapi` field; when the blob is empty but an override value exists,
that value is JSON-encoded as-is. -/
theorem c2_smtpapi_merge_and_encode (p : SGPayload) (uniq : String) :
    (∀ fs, p.smtpapi ≠ [] →
      dictLookup p.data "x-smtpapi" = some (FieldValue.json (Json.obj fs)) →
      ∃ p', serialize_data p uniq = .ok p'
        ∧ dictLookup p'.data "x-smtpapi"
            = some (FieldValue.str (Json.encode (Json.obj (dictUpdate p.smtpapi fs)))))
    ∧ (∀ v, p.smtpapi = [] → dictLookup p.data "x-smtpapi" = some v →
      ∃ p', serialize_data p uniq = .ok p'
        ∧ dictLookup p'.data "x-smtpapi"
            = some (FieldValue.str (Json.encode v.toJson))) := by
  constructor
  · intro fs hnil hx
    have hpos : 0 < p.smtpapi.length := List.length_pos.mpr hnil
    have hstep : smtpapiStep p = .ok (dictInsert p.data "x-smtpapi"
        (FieldValue.str (Json.encode (Json.obj (dictUpdate p.smtpapi fs))))) := by
      simp [smtpapiStep, hpos, hx]
    have hser := serialize_data_ok p uniq _ hstep
    cases hml : ciLookup p.headers "Message-ID" with
    | some v =>
      refine ⟨_, hser.1 v hml, ?_⟩
      exact (dictLookup_dictInsert_ne _ "headers" "x-smtpapi" _ (by decide)).trans
        (dictLookup_dictInsert_self _ _ _)
    | none =>
      refine ⟨_, hser.2 hml, ?_⟩
      exact (dictLookup_dictInsert_ne _ "headers" "x-smtpapi" _ (by decide)).trans
        (dictLookup_dictInsert_self _ _ _)
  · intro v hnil hx
    have hstep : smtpapiStep p = .ok (dictInsert p.data "x-smtpapi"
        (FieldValue.str (Json.encode v.toJson))) := by
      simp [smtpapiStep, hnil, hx]
    have hser := serialize_data_ok p uniq _ hstep
    cases hml : ciLookup p.headers "Message-ID" with
    | some w =>
      refine ⟨_, hser.1 w hml, ?_⟩
      exact (dictLookup_dictInsert_ne _ "headers" "x-smtpapi" _ (by decide)).trans
        (dictLookup_dictInsert_self _ _ _)
    | none =>
      refine ⟨_, hser.2 hml, ?_⟩
      exact (dictLookup_dictInsert_ne _ "headers" "x-smtpapi" _ (by decide)).trans
        (dictLookup_dictInsert_self _ _ _)

def c2_payload_merge : SGPayload :=
  { init_payload with
    smtpapi := [("send_at", Json.num 5), ("category", Json.str "builder")],
    data := [("x-smtpapi", FieldValue.json (Json.obj [("category", Json.str "override")]))] }

def c2_payload_asis : SGPayload :=
  { init_payload with
    data := [("x-smtpapi", FieldValue.json (Json.obj [("category", Json.str "override")]))] }

/-- Witness for C2: a builder blob plus an override dict get shallow-merged
and encoded; with an empty blob the override value is encoded as-is. -/
theorem c2_witness :
    (∃ p', serialize_data c2_payload_merge "u" = .ok p'
      ∧ dictLookup p'.data "x-smtpapi" = some (FieldValue.str (Json.encode
          (Json.obj (dictUpdate c2_payload_merge.smtpapi
            [("category", Json.str "override")])))))
    ∧ (∃ p', serialize_data c2_payload_asis "u" = .ok p'
      ∧ dictLookup p'.data "x-smtpapi" = some (FieldValue.str (Json.encode
          (FieldValue.json (Json.obj [("category", Json.str "override")])).toJson))) :=
  ⟨(c2_smtpapi_merge_and_encode c2_payload_merge "u").1
      [("category", Json.str "override")] (List.cons_ne_nil _ _) rfl,
    (c2_smtpapi_merge_and_encode c2_payload_asis "u").2
      (FieldValue.json (Json.obj [("category", Json.str "override")])) rfl rfl⟩

/-- C3: during serialization the message identifier is the caller-supplied
`Message-ID` header when present; otherwise a synthesized identifier is used
and recorded in the headers sub-mapping.  The synthesized identifier's domain
segment is the part of the sender address after `@` (for
`alice@example.com`, `example.com`); with a missing or malformed sender it
falls back to the default domain, and serialization still succeeds (no
raise). -/
theorem c3_message_id_resolution (p : SGPayload) (uniq : String)
    (d1 : List (String × FieldValue)) (hstep : smtpapiStep p = .ok d1) :
    ∃ p', serialize_data p uniq = .ok p'
      ∧ (∀ v, ciLookup p.headers "Message-ID" = some v → p'.message_id = some v)
      ∧ (ciLookup p.headers "Message-ID" = none →
          p'.message_id = some (make_msgid uniq (extractDomain p.data))
          ∧ ciLookup p'.headers "Message-ID"
              = some (make_msgid uniq (extractDomain p.data)))
      ∧ (dictLookup p.data "from" = some (FieldValue.str "alice@example.com") →
          make_msgid uniq (extractDomain p.data) = "<" ++ uniq ++ "@" ++ "example.com" ++ ">")
      ∧ (extractDomain p.data = none →
          make_msgid uniq (extractDomain p.data) = "<" ++ uniq ++ "@" ++ "localdomain" ++ ">")
      ∧ (dictLookup p.data "from" = none → extractDomain p.data = none) := by
  have hser := serialize_data_ok p uniq d1 hstep
  have hfrom : extractDomain d1 = extractDomain p.data := by
    unfold extractDomain
    rw [smtpapiStep_lookup_from p d1 hstep]
  have hdom1 : dictLookup p.data "from" = some (FieldValue.str "alice@example.com") →
      make_msgid uniq (extractDomain p.data) = "<" ++ uniq ++ "@" ++ "example.com" ++ ">" := by
    intro hf
    have hdf : extractDomain p.data = some "example.com" := by
      unfold extractDomain
      rw [hf]
      decide
    rw [hdf]
    rfl
  have hdom2 : extractDomain p.data = none →
      make_msgid uniq (extractDomain p.data) = "<" ++ uniq ++ "@" ++ "localdomain" ++ ">" := by
    intro hd
    rw [hd]
    rfl
  have hdom3 : dictLookup p.data "from" = none → extractDomain p.data = none := by
    intro hf
    unfold extractDomain
    rw [hf]
    rfl
  cases hml : ciLookup p.headers "Message-ID" with
  | some v =>
    refine ⟨_, hser.1 v hml, ?_, ?_, hdom1, hdom2, hdom3⟩
    · intro w hw
      injection hw with hw
      exact congrArg some hw
    · intro hnone
      exact Option.noConfusion hnone
  | none =>
    refine ⟨_, hser.2 hml, ?_, ?_, hdom1, hdom2, hdom3⟩
    · intro w hw
      exact Option.noConfusion hw
    · intro _
      constructor
      · show some (make_message_id d1 uniq) = some (make_msgid uniq (extractDomain p.data))
        rw [make_message_id, hfrom]
      · show ciLookup (ciInsert p.headers "Message-ID" (make_message_id d1 uniq))
            "Message-ID" = some (make_msgid uniq (extractDomain p.data))
        rw [ciLookup_ciInsert_self, make_message_id, hfrom]

def c3_payload : SGPayload :=
  { init_payload with data := [("from", FieldValue.str "alice@example.com")] }

/-- Witness for C3: a payload with sender `alice@example.com` and no
caller-supplied `Message-ID`, and the fresh payload with no sender at all. -/
theorem c3_witness :
    (∃ p', serialize_data c3_payload "uniq1" = .ok p'
      ∧ (∀ v, ciLookup c3_payload.headers "Message-ID" = some v → p'.message_id = some v)
      ∧ (ciLookup c3_payload.headers "Message-ID" = none →
          p'.message_id = some (make_msgid "uniq1" (extractDomain c3_payload.data))
          ∧ ciLookup p'.headers "Message-ID"
              = some (make_msgid "uniq1" (extractDomain c3_payload.data)))
      ∧ (dictLookup c3_payload.data "from" = some (FieldValue.str "alice@example.com") →
          make_msgid "uniq1" (extractDomain c3_payload.data)
            = "<" ++ "uniq1" ++ "@" ++ "example.com" ++ ">")
      ∧ (extractDomain c3_payload.data = none →
          make_msgid "uniq1" (extractDomain c3_payload.data)
            = "<" ++ "uniq1" ++ "@" ++ "localdomain" ++ ">")
      ∧ (dictLookup c3_payload.data "from" = none → extractDomain c3_payload.data = none))
    ∧ (∃ p', serialize_data init_payload "uniq2" = .ok p'
      ∧ (∀ v, ciLookup init_payload.headers "Message-ID" = some v → p'.message_id = some v)
      ∧ (ciLookup init_payload.headers "Message-ID" = none →
          p'.message_id = some (make_msgid "uniq2" (extractDomain init_payload.data))
          ∧ ciLookup p'.headers "Message-ID"
              = some (make_msgid "uniq2" (extractDomain init_payload.data)))
      ∧ (dictLookup init_payload.data "from" = some (FieldValue.str "alice@example.com") →
          make_msgid "uniq2" (extractDomain init_payload.data)
            = "<" ++ "uniq2" ++ "@" ++ "example.com" ++ ">")
      ∧ (extractDomain init_payload.data = none →
          make_msgid "uniq2" (extractDomain init_payload.data)
            = "<" ++ "uniq2" ++ "@" ++ "localdomain" ++ ">")
      ∧ (dictLookup init_payload.data "from" = none → extractDomain init_payload.data = none)) :=
  ⟨c3_message_id_resolution c3_payload "uniq1" c3_payload.data rfl,
    c3_message_id_resolution init_payload "uniq2" init_payload.data rfl⟩
